import Mathlib

/-!
Verification of the categorization engine of the VibeFi ticket
categorization service (src/ticket_categorizer.py).

The engine is the pure function `categorize_ticket`, a chain of ordered
severity/keyword rules mapping a `TicketInput` to an `ActionPlan`.  We embed
the data model and the rule chain shallowly and prove the spec's testable
properties about it.

String operations: the Python code uses `str.lower()`, `str.upper()` and the
substring operator `in`.  All keyword lists, severity values and reasoning
templates in the program are plain ASCII, so we model `lower`/`upper` as the
ASCII case maps (which agree with CPython on ASCII input) and `in` as plain
substring containment on the character list.
-/

/-- ASCII lower-casing of one character: models CPython `str.lower` per
character on the ASCII range. -/
def lowerChar (c : Char) : Char :=
  if 65 ≤ c.toNat ∧ c.toNat ≤ 90 then Char.ofNat (c.toNat + 32) else c

/-- ASCII upper-casing of one character: models CPython `str.upper` per
character on the ASCII range. -/
def upperChar (c : Char) : Char :=
  if 97 ≤ c.toNat ∧ c.toNat ≤ 122 then Char.ofNat (c.toNat - 32) else c

/-- Models Python `s.lower()` (ASCII range). -/
def pyLower (s : String) : String := String.mk (s.data.map lowerChar)

/-- Models Python `s.upper()` (ASCII range). -/
def pyUpper (s : String) : String := String.mk (s.data.map upperChar)

/-- `beginsWith n h` holds when the character list `n` is an initial segment
of `h`. -/
def beginsWith : List Char → List Char → Bool
  | [], _ => true
  | _ :: _, [] => false
  | a :: as, b :: bs => a == b && beginsWith as bs

/-- `subList n h`: `n` occurs as a contiguous run inside `h` (at any
position, including the end). -/
def subList (n : List Char) : List Char → Bool
  | [] => beginsWith n []
  | b :: bs => beginsWith n (b :: bs) || subList n bs

/-- Models the Python substring test `needle in hay` on strings: plain
containment, no word boundaries, empty needle always matches. -/
def strIn (needle hay : String) : Bool := subList needle.data hay.data

/-- The two possible decisions (class `ActionType` in the source). -/
inductive ActionType where
  | AI_CODE_PATCH : ActionType
  | VIBE_WORKFLOW : ActionType
deriving DecidableEq, Repr

/-- Input data model (class `TicketInput`).  The source constrains
`severity` to the four literals at the validation boundary; the engine
itself receives a string and lower-cases it, so we model it as `String`. -/
structure TicketInput where
  channel : String
  severity : String
  summary : String
deriving DecidableEq, Repr

/-- Output data model (class `ActionPlan`). -/
structure ActionPlan where
  decision : ActionType
  reasoning : String
  next_actions_checklist : List String
deriving DecidableEq, Repr

/-- Rule 1 keyword list (`code_keywords` in the source). -/
def code_keywords : List String :=
  ["error", "failure", "bug", "404", "500", "incorrect calculation",
   "database", "api down", "system crash"]

/-- Rule 2 keyword list (inline in the source). -/
def banking_keywords : List String := ["fraud", "transaction", "payment processing"]

/-- Rule 3 keyword list (`workflow_keywords` in the source). -/
def workflow_keywords : List String :=
  ["forgot password", "reset pin", "locked", "account blocked", "rate limit",
   "cannot log in", "update address"]

/-- Rule 4 keyword list (inline in the source). -/
def inquiry_keywords : List String := ["how to", "question about", "need help with", "inquire"]

/-- Rule 1 guard: `severity in ["critical", "high"]` and
`any(keyword in summary_lower for keyword in code_keywords)`. -/
def rule1_hit (severity summary_lower : String) : Bool :=
  (severity == "critical" || severity == "high") &&
    code_keywords.any (fun keyword => strIn keyword summary_lower)

/-- Rule 2 guard: `severity == "high"` and a banking keyword occurs. -/
def rule2_hit (severity summary_lower : String) : Bool :=
  severity == "high" && banking_keywords.any (fun keyword => strIn keyword summary_lower)

/-- Rule 3 guard: `severity in ["medium", "low"]` and a workflow keyword
occurs. -/
def rule3_hit (severity summary_lower : String) : Bool :=
  (severity == "medium" || severity == "low") &&
    workflow_keywords.any (fun keyword => strIn keyword summary_lower)

/-- Rule 4 guard: an inquiry keyword occurs (severity plays no part). -/
def rule4_hit (summary_lower : String) : Bool :=
  inquiry_keywords.any (fun keyword => strIn keyword summary_lower)

/-- Body of `categorize_ticket` with the two local bindings of the source
(`severity := ticket.severity.lower()`, `summary_lower :=
ticket.summary.lower()`) taken as parameters, plus `raw_summary :=
ticket.summary`, which the rule-1 and rule-2 reasoning strings interpolate
verbatim.  `categorize_ticket` below instantiates them exactly as the
source does; the sequential early returns of the Python function become an
if/else-if chain, whose guards are the `rule*_hit` transcriptions above. -/
def categorize_from (severity summary_lower raw_summary : String) : ActionPlan :=
  -- Rule 1: critical or high severity with system failure keywords
  if rule1_hit severity summary_lower then
    { decision := ActionType.AI_CODE_PATCH
      reasoning := "Severity is **" ++ pyUpper severity ++
        "** and summary suggests a core system/code failure (`" ++ raw_summary ++ "`)."
      next_actions_checklist :=
        ["Verify bug is reproducible in staging environment.",
         "Create a detailed Jira ticket linking logs.",
         "Tag SRE team for immediate monitoring."] }
  -- Rule 2: high severity in sensitive banking operations
  else if rule2_hit severity summary_lower then
    { decision := ActionType.AI_CODE_PATCH
      reasoning := "Severity is **HIGH** and involves a critical financial process (`" ++
        raw_summary ++ "`). Likely requires code audit/patch."
      next_actions_checklist :=
        ["Immediately freeze affected user accounts/processes.",
         "Alert compliance and security teams.",
         "Capture full transaction log details."] }
  -- Rule 3: low/medium severity with account/credential keywords
  else if rule3_hit severity summary_lower then
    { decision := ActionType.VIBE_WORKFLOW
      reasoning := "Severity is **" ++ pyUpper severity ++
        "** and issue relates to known user/account procedural action. Vibe workflow exists."
      next_actions_checklist :=
        ["Run Vibe Script 'User-Account-Unblock-v1.0'.",
         "Confirm two-factor authentication reset with user via secure channel.",
         "Document successful run in the ticket notes."] }
  -- Rule 4: general inquiry or request (low-impact)
  else if rule4_hit summary_lower then
    { decision := ActionType.VIBE_WORKFLOW
      reasoning := "The ticket appears to be a general inquiry or procedural request, best handled by a documented Vibe troubleshooting script."
      next_actions_checklist :=
        ["Check internal knowledge base for an existing Vibe script.",
         "Reply with documented steps/FAQ link.",
         "If no Vibe script exists, manually triage to L1 support."] }
  -- Default A: any high/critical ticket missed earlier
  else if severity == "critical" || severity == "high" then
    { decision := ActionType.AI_CODE_PATCH
      reasoning := "Default routing for **" ++ pyUpper severity ++
        "** tickets. System failure is the most cautious default."
      next_actions_checklist :=
        ["Manually triage to L2 developer support.",
         "Review the system health dashboard immediately.",
         "Capture full user session data."] }
  -- Default B: regular procedural check
  else
    { decision := ActionType.VIBE_WORKFLOW
      reasoning := "Default routing for unclassified medium/low severity tickets, assumed to be procedural."
      next_actions_checklist :=
        ["Escalate to the appropriate L1 support queue for manual review.",
         "Monitor ticket for 30 minutes for any change in status."] }

/-- Embedding of `categorize_ticket` (src/ticket_categorizer.py, lines
34-114). -/
def categorize_ticket (ticket : TicketInput) : ActionPlan :=
  categorize_from (pyLower ticket.severity) (pyLower ticket.summary) ticket.summary

/-! ## Claim theorems -/

/-- C1.  Totality: for every severity in {critical, high, medium, low},
every summary string and every channel string, `categorize_ticket` returns
an `ActionPlan` whose `next_actions_checklist` is non-empty; no input falls
through without a decision. -/
theorem categorize_total (t : TicketInput)
    (hsev : t.severity = "critical" ∨ t.severity = "high" ∨
      t.severity = "medium" ∨ t.severity = "low") :
    (categorize_ticket t).next_actions_checklist ≠ [] := by
  unfold categorize_ticket categorize_from
  (repeat' split) <;> dsimp only <;> decide

/-- Witness for `categorize_total` at a concrete ticket. -/
theorem categorize_total_witness :
    (categorize_ticket ⟨"email", "low", ""⟩).next_actions_checklist ≠ [] :=
  categorize_total ⟨"email", "low", ""⟩ (by simp)

/-- C2.  Rule 1: whenever the (lower-cased) severity is critical or high and
the lower-cased summary contains one of the rule-1 keywords as a plain
substring, the decision is `AI_CODE_PATCH`. -/
theorem rule1_code_patch (t : TicketInput)
    (hsev : pyLower t.severity = "critical" ∨ pyLower t.severity = "high")
    (hkw : ∃ k ∈ code_keywords, strIn k (pyLower t.summary) = true) :
    (categorize_ticket t).decision = ActionType.AI_CODE_PATCH := by
  have h1 : rule1_hit (pyLower t.severity) (pyLower t.summary) = true := by
    obtain ⟨k, hk, hks⟩ := hkw
    rcases hsev with h | h <;>
      simp [rule1_hit, h, List.any_eq_true] <;> exact ⟨k, hk, hks⟩
  unfold categorize_ticket categorize_from
  simp [h1]

/-- Witness for `rule1_code_patch`: "404" occurring inside "object 40499"
counts as a plain substring match. -/
theorem rule1_code_patch_witness :
    (0 < 1 ∧ strIn "404" (pyLower "object 40499 lookup") = true) ∧
    (categorize_ticket ⟨"web", "high", "object 40499 lookup"⟩).decision
      = ActionType.AI_CODE_PATCH :=
  ⟨⟨Nat.zero_lt_one, by decide⟩,
    rule1_code_patch ⟨"web", "high", "object 40499 lookup"⟩ (Or.inr (by decide))
      ⟨"404", by decide, by decide⟩⟩

/-- C3.  Priority ordering: a high-severity ticket matching both a rule-1
and a rule-3 keyword resolves via rule 1, returning rule 1's full
`ActionPlan` (decision `AI_CODE_PATCH`, rule-1 reasoning and checklist),
never rule 3's `VIBE_WORKFLOW` outcome. -/
theorem rule1_beats_rule3 (t : TicketInput)
    (hsev : pyLower t.severity = "high")
    (hkw1 : ∃ k ∈ code_keywords, strIn k (pyLower t.summary) = true)
    (hkw3 : ∃ k ∈ workflow_keywords, strIn k (pyLower t.summary) = true) :
    categorize_ticket t =
      { decision := ActionType.AI_CODE_PATCH
        reasoning := "Severity is **HIGH** and summary suggests a core system/code failure (`"
          ++ t.summary ++ "`)."
        next_actions_checklist :=
          ["Verify bug is reproducible in staging environment.",
           "Create a detailed Jira ticket linking logs.",
           "Tag SRE team for immediate monitoring."] } := by
  have h1 : rule1_hit (pyLower t.severity) (pyLower t.summary) = true := by
    obtain ⟨k, hk, hks⟩ := hkw1
    simp [rule1_hit, hsev, List.any_eq_true]
    exact ⟨k, hk, hks⟩
  have hup : pyUpper (pyLower t.severity) = "HIGH" := by rw [hsev]; rfl
  unfold categorize_ticket categorize_from
  simp [h1, hup]

/-- Witness for `rule1_beats_rule3` at the spec's example summary. -/
theorem rule1_beats_rule3_witness :
    categorize_ticket ⟨"web", "high", "database error, forgot password"⟩ =
      { decision := ActionType.AI_CODE_PATCH
        reasoning := "Severity is **HIGH** and summary suggests a core system/code failure (`database error, forgot password`)."
        next_actions_checklist :=
          ["Verify bug is reproducible in staging environment.",
           "Create a detailed Jira ticket linking logs.",
           "Tag SRE team for immediate monitoring."] } :=
  rule1_beats_rule3 ⟨"web", "high", "database error, forgot password"⟩
    (by decide) ⟨"database", by decide, by decide⟩
    ⟨"forgot password", by decide, by decide⟩

/-- C5.  Determinism: identical inputs produce identical outputs,
byte-for-byte (the engine is a pure function of the ticket record). -/
theorem categorize_deterministic (t1 t2 : TicketInput) (h : t1 = t2) :
    categorize_ticket t1 = categorize_ticket t2 := by rw [h]

/-- Witness for `categorize_deterministic` at a concrete ticket. -/
theorem categorize_deterministic_witness :
    categorize_ticket ⟨"web", "high", "fraud report"⟩ =
      categorize_ticket ⟨"web", "high", "fraud report"⟩ :=
  categorize_deterministic ⟨"web", "high", "fraud report"⟩
    ⟨"web", "high", "fraud report"⟩ rfl

/-- C9.  Channel noninterference: two tickets agreeing on severity and
summary receive identical `ActionPlan`s regardless of their channels. -/
theorem channel_noninterference (t1 t2 : TicketInput)
    (hsev : t1.severity = t2.severity) (hsum : t1.summary = t2.summary) :
    categorize_ticket t1 = categorize_ticket t2 := by
  unfold categorize_ticket
  rw [hsev, hsum]

/-- Witness for `channel_noninterference`: same ticket over two different
channels. -/
theorem channel_noninterference_witness :
    categorize_ticket ⟨"email", "high", "database error"⟩ =
      categorize_ticket ⟨"phone", "high", "database error"⟩ :=
  channel_noninterference ⟨"email", "high", "database error"⟩
    ⟨"phone", "high", "database error"⟩ rfl rfl

/-- C10.  Medium/low tickets never get `AI_CODE_PATCH`: every ticket whose
lower-cased severity is medium or low is decided `VIBE_WORKFLOW`, whatever
the summary. -/
theorem medium_low_vibe (t : TicketInput)
    (hsev : pyLower t.severity = "medium" ∨ pyLower t.severity = "low") :
    (categorize_ticket t).decision = ActionType.VIBE_WORKFLOW := by
  have h1 : rule1_hit (pyLower t.severity) (pyLower t.summary) = false := by
    rcases hsev with h | h <;> simp [rule1_hit, h]
  have h2 : rule2_hit (pyLower t.severity) (pyLower t.summary) = false := by
    rcases hsev with h | h <;> simp [rule2_hit, h]
  have h5 : (pyLower t.severity == "critical" || pyLower t.severity == "high") = false := by
    rcases hsev with h | h <;> simp [h]
  unfold categorize_ticket categorize_from
  simp only [h1, h2, h5, Bool.false_eq_true, if_false]
  (repeat' split) <;> rfl

/-- Witness for `medium_low_vibe`: a medium ticket whose summary is full of
rule-1 keywords still gets `VIBE_WORKFLOW`. -/
theorem medium_low_vibe_witness :
    (categorize_ticket ⟨"web", "medium", "database error 500 bug"⟩).decision
      = ActionType.VIBE_WORKFLOW :=
  medium_low_vibe ⟨"web", "medium", "database error 500 bug"⟩ (Or.inl (by decide))

/-- Helper: the decision and the checklist produced by `categorize_from`
do not depend on the verbatim summary argument, which only feeds the
reasoning text of rules 1 and 2. -/
theorem categorize_from_raw (severity summary_lower r r' : String) :
    (categorize_from severity summary_lower r).decision
      = (categorize_from severity summary_lower r').decision ∧
    (categorize_from severity summary_lower r).next_actions_checklist
      = (categorize_from severity summary_lower r').next_actions_checklist := by
  by_cases h1 : rule1_hit severity summary_lower = true
  · simp [categorize_from, h1]
  by_cases h2 : rule2_hit severity summary_lower = true
  · simp [categorize_from, h1, h2]
  by_cases h3 : rule3_hit severity summary_lower = true
  · simp [categorize_from, h1, h2, h3]
  by_cases h4 : rule4_hit summary_lower = true
  · simp [categorize_from, h1, h2, h3, h4]
  by_cases h5 : (severity == "critical" || severity == "high") = true
  · simp [categorize_from, h1, h2, h3, h4, h5]
  · simp [categorize_from, h1, h2, h3, h4, h5]

/-- C4 counterexample: re-casing the summary does not leave the full
`ActionPlan` unchanged, because the rule-1 reasoning interpolates the raw
summary verbatim.  Severity "high" with summary "DATABASE ERROR" and with
"database error" matches rule 1 both times, but the two plans differ in
their reasoning text. -/
theorem case_insensitivity_cex :
    categorize_ticket ⟨"web", "high", "DATABASE ERROR"⟩ ≠
      categorize_ticket ⟨"web", "high", "database error"⟩ := by decide

/-- C4 amended.  Case insensitivity: re-casing the severity yields the
identical full `ActionPlan`; re-casing the summary yields the identical
decision and checklist (the reasoning may embed the original summary text
verbatim, so only those two fields are preserved under summary
re-casing). -/
theorem case_insensitivity (t : TicketInput) (sev' sum' : String)
    (hs : pyLower sev' = pyLower t.severity)
    (hm : pyLower sum' = pyLower t.summary) :
    categorize_ticket ⟨t.channel, sev', t.summary⟩ = categorize_ticket t ∧
    (categorize_ticket ⟨t.channel, sev', sum'⟩).decision
      = (categorize_ticket t).decision ∧
    (categorize_ticket ⟨t.channel, sev', sum'⟩).next_actions_checklist
      = (categorize_ticket t).next_actions_checklist := by
  unfold categorize_ticket
  dsimp only
  rw [hs, hm]
  exact ⟨rfl, (categorize_from_raw _ _ sum' t.summary).1,
    (categorize_from_raw _ _ sum' t.summary).2⟩

/-- Witness for `case_insensitivity`: "HIGH"/"PAYMENT FAILURE" against
"high"/"payment failure". -/
theorem case_insensitivity_witness :
    categorize_ticket ⟨"web", "HIGH", "payment failure"⟩ =
      categorize_ticket ⟨"web", "high", "payment failure"⟩ ∧
    (categorize_ticket ⟨"web", "HIGH", "PAYMENT FAILURE"⟩).decision
      = (categorize_ticket ⟨"web", "high", "payment failure"⟩).decision ∧
    (categorize_ticket ⟨"web", "HIGH", "PAYMENT FAILURE"⟩).next_actions_checklist
      = (categorize_ticket ⟨"web", "high", "payment failure"⟩).next_actions_checklist :=
  case_insensitivity ⟨"web", "high", "payment failure"⟩ "HIGH" "PAYMENT FAILURE"
    (by decide) (by decide)

/-- C6.  Rule 4 is severity-independent: whenever rules 1-3 all missed and
the lower-cased summary contains an inquiry keyword, the decision is
`VIBE_WORKFLOW`, whatever the severity. -/
theorem rule4_vibe (t : TicketInput)
    (h1 : rule1_hit (pyLower t.severity) (pyLower t.summary) = false)
    (h2 : rule2_hit (pyLower t.severity) (pyLower t.summary) = false)
    (h3 : rule3_hit (pyLower t.severity) (pyLower t.summary) = false)
    (h4 : ∃ k ∈ inquiry_keywords, strIn k (pyLower t.summary) = true) :
    (categorize_ticket t).decision = ActionType.VIBE_WORKFLOW := by
  have h4t : rule4_hit (pyLower t.summary) = true := by
    obtain ⟨k, hk, hks⟩ := h4
    simp [rule4_hit, List.any_eq_true]
    exact ⟨k, hk, hks⟩
  unfold categorize_ticket categorize_from
  simp [h1, h2, h3, h4t]

/-- Witness for `rule4_vibe` at the spec's scenario D. -/
theorem rule4_vibe_witness :
    (categorize_ticket ⟨"web", "medium", "question about statement fees"⟩).decision
      = ActionType.VIBE_WORKFLOW :=
  rule4_vibe ⟨"web", "medium", "question about statement fees"⟩
    (by decide) (by decide) (by decide)
    ⟨"question about", by decide, by decide⟩

/-- C7.  Default routing: when none of rules 1-4 matched, critical/high
tickets get `AI_CODE_PATCH` (default A) and medium/low tickets get
`VIBE_WORKFLOW` (default B). -/
theorem default_routing (t : TicketInput)
    (h1 : rule1_hit (pyLower t.severity) (pyLower t.summary) = false)
    (h2 : rule2_hit (pyLower t.severity) (pyLower t.summary) = false)
    (h3 : rule3_hit (pyLower t.severity) (pyLower t.summary) = false)
    (h4 : rule4_hit (pyLower t.summary) = false) :
    ((pyLower t.severity = "critical" ∨ pyLower t.severity = "high") →
      (categorize_ticket t).decision = ActionType.AI_CODE_PATCH) ∧
    ((pyLower t.severity = "medium" ∨ pyLower t.severity = "low") →
      (categorize_ticket t).decision = ActionType.VIBE_WORKFLOW) := by
  unfold categorize_ticket categorize_from
  simp only [h1, h2, h3, h4, Bool.false_eq_true, if_false]
  constructor
  · intro hs
    rcases hs with h | h <;> simp [h]
  · intro hs
    rcases hs with h | h <;> simp [h]

/-- Witness for `default_routing` at the spec's scenarios E and F. -/
theorem default_routing_witness :
    (categorize_ticket ⟨"web", "critical", "app feels slow today"⟩).decision
      = ActionType.AI_CODE_PATCH ∧
    (categorize_ticket ⟨"web", "low", "just checking balance"⟩).decision
      = ActionType.VIBE_WORKFLOW :=
  ⟨(default_routing ⟨"web", "critical", "app feels slow today"⟩
      (by decide) (by decide) (by decide) (by decide)).1 (Or.inl (by decide)),
   (default_routing ⟨"web", "low", "just checking balance"⟩
      (by decide) (by decide) (by decide) (by decide)).2 (Or.inr (by decide))⟩

/-- C8 counterexample: the default-A reasoning template does not
interpolate the ticket's severity (or summary) verbatim.  For severity
"critical" the reasoning holds only the upper-cased "CRITICAL"; neither the
verbatim severity "critical" nor the verbatim summary occurs in it. -/
theorem reasoning_verbatim_cex :
    (categorize_ticket ⟨"web", "critical", "app feels slow today"⟩).reasoning =
      "Default routing for **CRITICAL** tickets. System failure is the most cautious default." ∧
    strIn "critical"
      (categorize_ticket ⟨"web", "critical", "app feels slow today"⟩).reasoning = false ∧
    strIn "app feels slow today"
      (categorize_ticket ⟨"web", "critical", "app feels slow today"⟩).reasoning = false := by
  decide

/-- C8 amended.  Reasoning templates: the reasoning is the fixed template
of the branch that matched; the rule-1 and rule-2 templates interpolate the
summary verbatim and the severity in upper-cased form, the rule-3 and
default-A templates interpolate the upper-cased severity only, and the
rule-4 and default-B templates are constant. -/
theorem reasoning_templates (t : TicketInput) :
    (rule1_hit (pyLower t.severity) (pyLower t.summary) = true →
      (categorize_ticket t).reasoning =
        "Severity is **" ++ pyUpper (pyLower t.severity) ++
          "** and summary suggests a core system/code failure (`" ++ t.summary ++ "`).") ∧
    (rule1_hit (pyLower t.severity) (pyLower t.summary) = false →
      rule2_hit (pyLower t.severity) (pyLower t.summary) = true →
      (categorize_ticket t).reasoning =
        "Severity is **HIGH** and involves a critical financial process (`" ++
          t.summary ++ "`). Likely requires code audit/patch.") ∧
    (rule1_hit (pyLower t.severity) (pyLower t.summary) = false →
      rule2_hit (pyLower t.severity) (pyLower t.summary) = false →
      rule3_hit (pyLower t.severity) (pyLower t.summary) = true →
      (categorize_ticket t).reasoning =
        "Severity is **" ++ pyUpper (pyLower t.severity) ++
          "** and issue relates to known user/account procedural action. Vibe workflow exists.") ∧
    (rule1_hit (pyLower t.severity) (pyLower t.summary) = false →
      rule2_hit (pyLower t.severity) (pyLower t.summary) = false →
      rule3_hit (pyLower t.severity) (pyLower t.summary) = false →
      rule4_hit (pyLower t.summary) = true →
      (categorize_ticket t).reasoning =
        "The ticket appears to be a general inquiry or procedural request, best handled by a documented Vibe troubleshooting script.") ∧
    (rule1_hit (pyLower t.severity) (pyLower t.summary) = false →
      rule2_hit (pyLower t.severity) (pyLower t.summary) = false →
      rule3_hit (pyLower t.severity) (pyLower t.summary) = false →
      rule4_hit (pyLower t.summary) = false →
      (pyLower t.severity == "critical" || pyLower t.severity == "high") = true →
      (categorize_ticket t).reasoning =
        "Default routing for **" ++ pyUpper (pyLower t.severity) ++
          "** tickets. System failure is the most cautious default.") ∧
    (rule1_hit (pyLower t.severity) (pyLower t.summary) = false →
      rule2_hit (pyLower t.severity) (pyLower t.summary) = false →
      rule3_hit (pyLower t.severity) (pyLower t.summary) = false →
      rule4_hit (pyLower t.summary) = false →
      (pyLower t.severity == "critical" || pyLower t.severity == "high") = false →
      (categorize_ticket t).reasoning =
        "Default routing for unclassified medium/low severity tickets, assumed to be procedural.") := by
  unfold categorize_ticket categorize_from
  refine ⟨?_, ?_, ?_, ?_, ?_, ?_⟩ <;> intros <;> simp_all

/-- Witness for `reasoning_templates` at a rule-1 ticket. -/
theorem reasoning_templates_witness :
    (categorize_ticket ⟨"web", "high", "error"⟩).reasoning =
      "Severity is **HIGH** and summary suggests a core system/code failure (`error`)." :=
  ((reasoning_templates ⟨"web", "high", "error"⟩).1 (by decide)).trans (by decide)
